import Mathlib

/-!
Shallow embedding of the VM orchestration and crash-monitoring engine of
the SchedTest repository (`src/vm/monitor.go`, `src/vm/vm.go`,
`src/vm/vm_pool.go`, and the qemu driver), together with proofs of the
testable properties stated about it.

Bytes of console output are modelled as `Nat` (the value of the Go byte),
byte buffers as `List Nat`.  The external reporter
(`pkg/report.Reporter`), the VM diagnosis hook (`Instance.Diagnose`) and
the trailing output that may still be in flight during `waitForOutput`
are abstracted into explicit parameters, since they are external
collaborators of the monitor.  Go `panic` is modelled by `Except.error`.
-/

set_option maxRecDepth 100000

namespace SchedTest

/-- `maxErrorLength` from `src/vm/monitor.go`. -/
def maxErrorLength : Nat := 256

/-- `afterContext = 128 << 10` from `src/vm/monitor.go`. -/
def afterContext : Nat := 128 * 1024

/-- `beforeContextDefault = 128 << 10` from `src/unnamed/part_001`. -/
def beforeContextDefault : Nat := 128 * 1024

/-- `lostConnectionCrash` from `src/vm/monitor.go`. -/
def lostConnectionCrash : String := "lost connection to test machine"

/-- `noOutputCrash` from `src/vm/monitor.go`. -/
def noOutputCrash : String := "no output from test machine"

/-- `timeoutCrash` from `src/vm/monitor.go`. -/
def timeoutCrash : String := "timed out"

/-- The `ExitCondition` bit `ExitTimeout = 1 << 0` from `src/vm/monitor.go`. -/
def ExitTimeout : Nat := 1

/-- The `ExitCondition` bit `ExitNormal = 1 << 1` from `src/vm/monitor.go`. -/
def ExitNormal : Nat := 2

/-- The `ExitCondition` bit `ExitError = 1 << 2` from `src/vm/monitor.go`. -/
def ExitError : Nat := 4

/-- Modelled from the spec: the crash-type enumeration of package
`pkg/report/crash`, which is not under `src/`.  Section 7 of the spec
classifies detected crashes as lost-connection, timeout, no-output, or a
symbolized/unknown kernel crash; `src/vm/monitor.go` names the members
`crash.UnknownType` and `crash.LostConnection` of this enumeration. -/
inductive CrashType where
  | unknownType
  | lostConnection
  | timeout
  | noOutput
  deriving DecidableEq, Repr

/-- `pkg/report.Report`, restricted to the fields the monitor reads or
writes (`Title`, `Type`, `Output`, `StartPos`, `EndPos`, `Suppressed`);
the package itself is an external collaborator. -/
structure Report where
  title : String
  typ : CrashType
  output : List Nat
  startPos : Int
  endPos : Int
  suppressed : Bool
  deriving DecidableEq, Repr

/-- The external reporter interface consumed by the monitor
(spec section 6): `ContainsCrash`, `ParseFrom`, `IsSuppressed`. -/
structure Reporter where
  containsCrash : List Nat → Bool
  parseFrom : List Nat → Nat → Option Report
  isSuppressed : List Nat → Bool

/-- The `monitor` struct of `src/vm/monitor.go`, restricted to the data
fields.  The channel handles (`outc`, `injected`, `errc`) become the
event list fed to `monitorExecution`; `inst` and `reporter` become
explicit parameters; `lastExecuteTime` and the wall clock are abstracted
into the boolean carried by the ticker event (whether
`time.Since(lastExecuteTime)` exceeded the no-output timeout);
`finished` is modelled by the boolean `hasFinished` (whether the
callback is still set). -/
structure Monitor where
  output : List Nat
  beforeContext : Nat
  matchPos : Nat
  exit : Nat
  extractCalled : Bool
  hasFinished : Bool
  deriving DecidableEq, Repr

/-- The backward walk of `appendOutput` (`src/vm/monitor.go` lines
104-109): starting from position `p`, step back at most `fuel` bytes,
stopping as soon as `p ≤ 0` or the byte before `p` is `'\n'` (10). -/
def walkBack (output : List Nat) : Nat → Int → Int
  | 0, p => p
  | fuel + 1, p =>
    if p ≤ 0 ∨ output.getD (p - 1).toNat 0 = 10 then p
    else walkBack output fuel (p - 1)

/-- The recomputation of `mon.matchPos` at the end of a match-free
`appendOutput` (`src/vm/monitor.go` lines 103-110):
`matchPos = len(output) - maxErrorLength`, walked backward up to
`maxErrorLength` bytes looking for a line boundary, then clamped to 0. -/
def computeMatchPos (output : List Nat) : Nat :=
  (max (walkBack output maxErrorLength ((output.length : Int) - (maxErrorLength : Int))) 0).toNat

/-- `appendOutput` from `src/vm/monitor.go`.  Returns the updated
monitor and whether a crash was detected (in the Go code the `true`
branch calls `extractError("unknown error")`; here the caller
`monitorExecution` performs that call on the returned state, which is
equivalent).  The update of `lastExecuteTime` on seeing
`executingProgram` and the `statOutputReceived` counter are time/stat
effects abstracted away (the ticker event carries the timeout oracle). -/
def appendOutput (reporter : Reporter) (mon : Monitor) (out : List Nat) : Monitor × Bool :=
  let output1 := mon.output ++ out
  if reporter.containsCrash (output1.drop mon.matchPos) then
    ({ mon with output := output1 }, true)
  else
    let output2 :=
      if output1.length > 2 * mon.beforeContext then
        output1.drop (output1.length - mon.beforeContext)
      else output1
    ({ mon with output := output2, matchPos := computeMatchPos output2 }, false)

/-- The external effects reachable from `extractError`: the
`Instance.Diagnose` hook (`src/unnamed/part_001`, delegating to the qemu
driver) and the trailing output chunks that arrive on `outc` while
`waitForOutput` runs its bounded timer. -/
structure VMEnv where
  diagnose : Report → List Nat
  trailing : List (List Nat)

/-- `waitForOutput` from `src/vm/monitor.go`: appends every chunk that
arrives before the bounded timer (or shutdown) fires; the buffer is only
appended to, `matchPos` is untouched. -/
def waitForOutput (env : VMEnv) (mon : Monitor) : Monitor :=
  { mon with output := mon.output ++ env.trailing.flatten }

/-- The bytes of a string constant (for `vmDiagnosisStart`). -/
def strBytes (s : String) : List Nat := s.data.map Char.toNat

/-- `vmDiagnosisStart` from `src/vm/monitor.go`. -/
def vmDiagnosisStart : List Nat := strBytes "\nVM DIAGNOSIS:\n"

/-- `createReport` from `src/vm/monitor.go`: parse the accumulated
output; if the reporter finds nothing, return `none` for an empty
default error, otherwise the default report whose `Type` is
`crash.LostConnection` for the lost-connection label and
`crash.UnknownType` for every other label.  A parsed report has its
output trimmed to `[StartPos - beforeContext, EndPos + afterContext]`
and its offsets rebased. -/
def createReport (reporter : Reporter) (mon : Monitor) (defaultError : String) : Option Report :=
  match reporter.parseFrom mon.output mon.matchPos with
  | none =>
    if defaultError = "" then none
    else
      some { title := defaultError
             typ := if defaultError = lostConnectionCrash then CrashType.lostConnection
                    else CrashType.unknownType
             output := mon.output
             startPos := 0
             endPos := 0
             suppressed := reporter.isSuppressed mon.output }
  | some rep =>
    let start : Int := max (rep.startPos - (mon.beforeContext : Int)) 0
    let stop : Int := min (rep.endPos + (afterContext : Int)) (rep.output.length : Int)
    some { rep with
           output := (rep.output.drop start.toNat).take (stop - start).toNat
           startPos := rep.startPos - start
           endPos := rep.endPos - start }

/-- What `extractError` produces: the final monitor state, the report
(if any), how many times `Instance.Diagnose` was invoked, and whether
`waitForOutput` ran. -/
structure ExtractOut where
  mon : Monitor
  rep : Option Report
  diagnoseCount : Nat
  waited : Bool
  deriving DecidableEq, Repr

/-- The body of `extractError` between the at-most-once guard and the
return: the diagnosis step (`src/vm/monitor.go` lines 124-127, which
reads the pre-wait buffer `mon1`), the delayed-crash recheck (lines
134-137, which reads the post-wait buffer `mon2`), and the final report
construction with the diagnosis suffix (lines 139-147).  Returns the
report and the number of `Instance.Diagnose` invocations. -/
def extractErrorCore (env : VMEnv) (reporter : Reporter) (mon1 mon2 : Monitor)
    (defaultError : String) : Except String (Option Report × Nat) :=
  let dstep : Except String (List Nat × Nat) :=
    if defaultError ≠ "" then
      match createReport reporter mon1 defaultError with
      | some r => Except.ok (env.diagnose r, 1)
      | none => Except.error "rep is nil"
    else Except.ok ([], 0)
  match dstep with
  | Except.error m => Except.error m
  | Except.ok (diag1, dc1) =>
    let rstep : Except String (List Nat × Nat) :=
      if defaultError = "" ∧ reporter.containsCrash (mon2.output.drop mon2.matchPos) = true then
        match createReport reporter mon2 defaultError with
        | some r => Except.ok (env.diagnose r, dc1 + 1)
        | none => Except.error "rep is nil"
      else Except.ok (diag1, dc1)
    match rstep with
    | Except.error m => Except.error m
    | Except.ok (diagOutput, dc) =>
      match createReport reporter mon2 defaultError with
      | none => Except.ok (none, dc)
      | some rep =>
        let rep :=
          if diagOutput ≠ [] then
            { rep with output := rep.output ++ vmDiagnosisStart ++ diagOutput }
          else rep
        Except.ok (some rep, dc)

/-- `extractError` from `src/vm/monitor.go`.  A second invocation on the
same monitor, and `Instance.Diagnose` receiving a nil report, are the
two panics on this path, modelled by `Except.error`.  The early-finish
callback firing is modelled by clearing `hasFinished`.  `mon2` is the
buffer state after the bounded `waitForOutput` (skipped exactly when
the classification is the no-output crash, lines 128-132); the single
condition `defaultError ≠ noOutputCrash` decides both the wait and the
`waited` flag that records it. -/
def extractError (env : VMEnv) (reporter : Reporter) (mon : Monitor) (defaultError : String) :
    Except String ExtractOut :=
  if mon.extractCalled then Except.error "extractError called twice"
  else
    let mon1 : Monitor := { mon with extractCalled := true, hasFinished := false }
    let mon2 : Monitor := if defaultError ≠ noOutputCrash then waitForOutput env mon1 else mon1
    match extractErrorCore env reporter mon1 mon2 defaultError with
    | Except.error m => Except.error m
    | Except.ok (rep, dc) =>
      Except.ok ⟨mon2, rep, dc, if defaultError ≠ noOutputCrash then true else false⟩

/-- The value delivered on the command-exit channel `errc`: `nil`,
`vmimpl.ErrTimeout`, or any other error. -/
inductive ExitStatus where
  | normal
  | timeout
  | other
  deriving DecidableEq, Repr

/-- One readiness event of the five-way `select` of
`monitorExecution`.  The ticker event carries the oracle for
`time.Since(mon.lastExecuteTime) > NoOutput` (the clock is not part of
the shallow embedding); `injected` covers the activity channel, which
only resets that clock. -/
inductive Event where
  | exited (s : ExitStatus)
  | outputChunk (out : List Nat)
  | outputClosed
  | injected
  | tick (noOutputExceeded : Bool)
  | shutdown
  deriving DecidableEq, Repr

/-- The outcome of `monitorExecution`: the final monitor, whether the
loop returned (`terminated = false` means the event list ran out while
the Go loop would still be blocked in `select`), the returned report,
and the extraction effects. -/
structure RunResult where
  mon : Monitor
  terminated : Bool
  rep : Option Report
  diagnoseCount : Nat
  waited : Bool
  deriving DecidableEq, Repr

/-- Packaging of an `extractError` result as a `monitorExecution`
return. -/
def finishWithExtract (env : VMEnv) (reporter : Reporter) (mon : Monitor)
    (defaultError : String) : Except String RunResult :=
  match extractError env reporter mon defaultError with
  | Except.error m => Except.error m
  | Except.ok out => Except.ok ⟨out.mon, true, out.rep, out.diagnoseCount, out.waited⟩

/-- `monitorExecution` from `src/vm/monitor.go`, driven by the list of
`select` events in the order they become ready. -/
def monitorExecution (env : VMEnv) (reporter : Reporter) :
    Monitor → List Event → Except String RunResult
  | mon, [] => Except.ok ⟨mon, false, none, 0, false⟩
  | mon, e :: rest =>
    match e with
    | Event.exited ExitStatus.normal =>
      finishWithExtract env reporter mon
        (if mon.exit.land ExitNormal = 0 then lostConnectionCrash else "")
    | Event.exited ExitStatus.timeout =>
      if mon.exit.land ExitTimeout = 0 then
        finishWithExtract env reporter mon timeoutCrash
      else Except.ok ⟨mon, true, none, 0, false⟩
    | Event.exited ExitStatus.other =>
      finishWithExtract env reporter mon
        (if mon.exit.land ExitError = 0 then lostConnectionCrash else "")
    | Event.outputChunk out =>
      match appendOutput reporter mon out with
      | (mon1, true) => finishWithExtract env reporter mon1 "unknown error"
      | (mon1, false) => monitorExecution env reporter mon1 rest
    | Event.outputClosed => monitorExecution env reporter mon rest
    | Event.injected => monitorExecution env reporter mon rest
    | Event.tick exceeded =>
      if exceeded then finishWithExtract env reporter mon noOutputCrash
      else monitorExecution env reporter mon rest
    | Event.shutdown => Except.ok ⟨mon, true, none, 0, false⟩

/-- The variadic option list of `Instance.Run`
(`src/unnamed/part_001`): a value of one of the four accepted types, or
a value of any other dynamic type (`unknown`, carrying the `%#v`
rendering that the Go panic message would embed). -/
inductive RunOpt where
  | exitCondition (e : Nat)
  | outputSize (n : Nat)
  | injectExecuting
  | earlyFinishCb
  | unknown (descr : String)
  deriving DecidableEq, Repr

/-- The configuration accumulated by `Instance.Run`'s option loop. -/
structure RunCfg where
  exit : Nat
  outputSize : Nat
  injected : Bool
  hasFinished : Bool
  deriving DecidableEq, Repr

/-- The defaults of `Instance.Run` before the option loop:
`exit = ExitNormal`, `outputSize = beforeContextDefault`, no activity
channel, no early-finish callback. -/
def defaultRunCfg : RunCfg := ⟨ExitNormal, beforeContextDefault, false, false⟩

/-- The option type-switch loop of `Instance.Run`
(`src/unnamed/part_001` lines 72-85): later options override earlier
ones, an unknown option type panics. -/
def parseOpts : RunCfg → List RunOpt → Except String RunCfg
  | cfg, [] => Except.ok cfg
  | cfg, o :: rest =>
    match o with
    | RunOpt.exitCondition e => parseOpts { cfg with exit := e } rest
    | RunOpt.outputSize n => parseOpts { cfg with outputSize := n } rest
    | RunOpt.injectExecuting => parseOpts { cfg with injected := true } rest
    | RunOpt.earlyFinishCb => parseOpts { cfg with hasFinished := true } rest
    | RunOpt.unknown descr => Except.error ("unknown option " ++ descr)

/-- The fresh monitor built by `Instance.Run` after the option loop. -/
def freshMonitor (cfg : RunCfg) : Monitor :=
  { output := [], beforeContext := cfg.outputSize, matchPos := 0,
    exit := cfg.exit, extractCalled := false, hasFinished := cfg.hasFinished }

/-- `Instance.Run` from `src/unnamed/part_001`: parse the options
(panicking on an unknown one), then run the monitor over the events;
returns the accumulated output and the report.  The subprocess launch
(`qemuimpl.Run`) happens after the option loop and is abstracted into
the event list. -/
def instanceRun (env : VMEnv) (reporter : Reporter) (opts : List RunOpt)
    (events : List Event) : Except String RunResult :=
  match parseOpts defaultRunCfg opts with
  | Except.error m => Except.error m
  | Except.ok cfg => monitorExecution env reporter (freshMonitor cfg) events

/-- `true` for `Except.ok`. -/
def exceptIsOk {ε α : Type} : Except ε α → Bool
  | Except.ok _ => true
  | Except.error _ => false

/-- The projection of a `monitorExecution` result the properties talk
about: did it return, the report's title and crash type, how many times
`Diagnose` ran, and whether `waitForOutput` ran. -/
def runResultSummary (r : RunResult) : Bool × Option String × Option CrashType × Nat × Bool :=
  (r.terminated, r.rep.map Report.title, r.rep.map Report.typ, r.diagnoseCount, r.waited)

/-- `startsWith` on character lists (the spine of Go
`strings.Contains`). -/
def startsWithL : List Char → List Char → Bool
  | _, [] => true
  | [], _ :: _ => false
  | c :: cs, d :: ds => c = d && startsWithL cs ds

/-- Substring search on character lists. -/
def containsSubL (sub : List Char) : List Char → Bool
  | [] => startsWithL [] sub
  | c :: cs => startsWithL (c :: cs) sub || containsSubL sub cs

/-- Go `strings.Contains`. -/
def strContains (s sub : String) : Bool := containsSubL sub.data s.data

/-- The three transient-failure tests of `qemu.Pool.Create`
(`src/unnamed/part_000` lines 629-637): the host-forwarding-rule text
(matched without its first letter, since older qemu prints "could" and
newer "Could"), "Device or resource busy", and "Address already in
use".  The Go code performs the three `strings.Contains` checks in
three successive `if` statements; as all are pure, the disjunction is
equivalent. -/
def isTransientErr (e : String) : Bool :=
  strContains e "ould not set up host forwarding rule" ||
  strContains e "Device or resource busy" ||
  strContains e "Address already in use"

/-- The retry loop of `qemu.Pool.Create` (`src/unnamed/part_000` lines
623-640), polymorphic in the instance type.  `attempts i` is the result
of the `i`-th call of `pool.ctor`; `retriesLeft = 1000 - i` encodes the
Go guard `i < 1000`: a transient error retries while retries remain,
any other error (or a transient error once the cap is hit) is returned
as is. -/
def createLoop {α : Type} (attempts : Nat → Except String α) : Nat → Nat → Except String α
  | i, retriesLeft =>
    match attempts i with
    | Except.ok inst => Except.ok inst
    | Except.error e =>
      match retriesLeft with
      | 0 => Except.error e
      | r + 1 =>
        if isTransientErr e then createLoop attempts (i + 1) r
        else Except.error e

/-- `qemu.Pool.Create` (`src/unnamed/part_000` lines 619-640): the loop
starts at attempt 0 with the full retry budget of 1000. -/
def qemuPoolCreate {α : Type} (attempts : Nat → Except String α) : Except String α :=
  createLoop attempts 0 1000

/-- The two `activeCount` mutations of package `vm`: `Pool.Create`
increments it on success (`src/vm/vm.go` line 130) and the `onClose`
hook of `Instance.Close` decrements it (`src/vm/vm.go` lines 136,
240). -/
inductive PoolEvt where
  | created
  | closedInstance
  deriving DecidableEq, Repr

/-- One `activeCount` update. -/
def applyPoolEvt (c : Int) : PoolEvt → Int
  | PoolEvt.created => c + 1
  | PoolEvt.closedInstance => c - 1

/-- `pool.activeCount` after a history of creates and instance
closes, starting from 0. -/
def activeAfter (evts : List PoolEvt) : Int := evts.foldl applyPoolEvt 0

/-- `vm.Pool.Close` (`src/vm/vm.go` lines 143-148): panics while
`activeCount != 0`, otherwise returns nil. -/
def poolClose (activeCount : Int) : Except String Unit :=
  if activeCount ≠ 0 then Except.error "all the instances should be closed before pool.Close()"
  else Except.ok ()

/-- `appendOutput` iterated over a chunk sequence, stopping (as
`monitorExecution` does) as soon as a crash is detected. -/
def appendAll (reporter : Reporter) : Monitor → List (List Nat) → Monitor
  | mon, [] => mon
  | mon, c :: cs =>
    match appendOutput reporter mon c with
    | (m, true) => m
    | (m, false) => appendAll reporter m cs

/-- A reporter that never matches anything. -/
def reporterNone : Reporter := ⟨fun _ => false, fun _ _ => none, fun _ => false⟩

/-- A reporter whose `ContainsCrash` matches every window. -/
def reporterAlways : Reporter := ⟨fun _ => true, fun _ _ => none, fun _ => false⟩

/-- A VM environment with an inert diagnosis hook and no trailing
output. -/
def envSilent : VMEnv := ⟨fun _ => [], []⟩

/-- A monitor with `beforeContext = 1` (i.e. `Run` was given
`OutputSize(1)`). -/
def tinyMonitor : Monitor :=
  { output := [], beforeContext := 1, matchPos := 0, exit := ExitNormal,
    extractCalled := false, hasFinished := false }

/- ### The backward walk of `appendOutput` -/

/-- The walk either stops at a non-positive position, or lands right
after a newline, or exhausts its fuel, having moved back exactly `fuel`
bytes. -/
theorem walkBack_spec (output : List Nat) (fuel : Nat) (p : Int) :
    walkBack output fuel p ≤ 0 ∨
    output.getD ((walkBack output fuel p) - 1).toNat 0 = 10 ∨
    walkBack output fuel p = p - fuel := by
  induction fuel generalizing p with
  | zero => right; right; simp [walkBack]
  | succ n ih =>
    rw [walkBack]
    split
    · next h =>
      rcases h with h | h
      · left; exact h
      · right; left; exact h
    · rcases ih (p - 1) with h1 | h1 | h1
      · left; exact h1
      · right; left; exact h1
      · right; right; rw [h1]; push_cast; ring

/-- The walk never moves forward. -/
theorem walkBack_le (output : List Nat) (fuel : Nat) (p : Int) :
    walkBack output fuel p ≤ p := by
  induction fuel generalizing p with
  | zero => simp [walkBack]
  | succ n ih =>
    rw [walkBack]
    split
    · exact le_refl p
    · exact le_trans (ih (p - 1)) (by omega)

/-- The recomputed `matchPos` never exceeds the buffer length. -/
theorem computeMatchPos_le (output : List Nat) : computeMatchPos output ≤ output.length := by
  unfold computeMatchPos
  have h := walkBack_le output maxErrorLength ((output.length : Int) - (maxErrorLength : Int))
  set q := walkBack output maxErrorLength ((output.length : Int) - (maxErrorLength : Int)) with hq
  rcases le_total q 0 with hq0 | hq0
  · rw [max_eq_right hq0]; simp
  · rw [max_eq_left hq0]; omega

/-- The recomputed `matchPos` is 0, or sits right after a newline, or —
when the bounded walk found no newline — is exactly
`len(output) - 2 * maxErrorLength`. -/
theorem computeMatchPos_spec (output : List Nat) :
    computeMatchPos output = 0 ∨
    output.getD (computeMatchPos output - 1) 0 = 10 ∨
    (computeMatchPos output : Int) = (output.length : Int) - 2 * (maxErrorLength : Int) := by
  unfold computeMatchPos
  set q := walkBack output maxErrorLength ((output.length : Int) - (maxErrorLength : Int)) with hq
  rcases walkBack_spec output maxErrorLength ((output.length : Int) - (maxErrorLength : Int))
    with h | h | h
  · left; rw [← hq] at h; rw [max_eq_right h]; simp
  · rw [← hq] at h
    rcases lt_or_le 0 q with hq0 | hq0
    · right; left
      rw [max_eq_left (le_of_lt hq0)]
      have he : q.toNat - 1 = (q - 1).toNat := by omega
      rw [he]; exact h
    · left; rw [max_eq_right hq0]; simp
  · rw [← hq] at h
    rcases le_total q 0 with hq0 | hq0
    · left; rw [max_eq_right hq0]; simp
    · right; right
      rw [max_eq_left hq0]
      omega

/- ### C1, C6, C9 -/

/-- `appendOutput` on a chunk whose window the reporter flags: the
buffer keeps the whole appended data and the step reports a crash. -/
theorem appendOutput_of_crash (reporter : Reporter) (mon : Monitor) (out : List Nat)
    (hc : reporter.containsCrash ((mon.output ++ out).drop mon.matchPos) = true) :
    appendOutput reporter mon out = ({ mon with output := mon.output ++ out }, true) := by
  simp [appendOutput, hc]

/-- `appendOutput` on a match-free chunk: compact if oversized, then
recompute `matchPos`. -/
theorem appendOutput_of_no_crash (reporter : Reporter) (mon : Monitor) (out : List Nat)
    (hc : reporter.containsCrash ((mon.output ++ out).drop mon.matchPos) = false) :
    appendOutput reporter mon out =
      ({ mon with
          output :=
            if (mon.output ++ out).length > 2 * mon.beforeContext then
              (mon.output ++ out).drop ((mon.output ++ out).length - mon.beforeContext)
            else mon.output ++ out
          matchPos := computeMatchPos
            (if (mon.output ++ out).length > 2 * mon.beforeContext then
              (mon.output ++ out).drop ((mon.output ++ out).length - mon.beforeContext)
            else mon.output ++ out) }, false) := by
  simp [appendOutput, hc]

/-- C1 (amended): after a match-free `appendOutput`, `matchPos` is 0,
or points right after a `'\n'` byte, or — when no newline was found
within the bounded backward walk — equals
`len(output) - 2 * maxErrorLength`. -/
theorem appendOutput_matchPos_line_boundary (reporter : Reporter) (mon : Monitor)
    (out : List Nat) (h : (appendOutput reporter mon out).2 = false) :
    (appendOutput reporter mon out).1.matchPos = 0 ∨
    (appendOutput reporter mon out).1.output.getD
      ((appendOutput reporter mon out).1.matchPos - 1) 0 = 10 ∨
    ((appendOutput reporter mon out).1.matchPos : Int) =
      ((appendOutput reporter mon out).1.output.length : Int) - 2 * (maxErrorLength : Int) := by
  cases hc : reporter.containsCrash ((mon.output ++ out).drop mon.matchPos) with
  | true => rw [appendOutput_of_crash reporter mon out hc] at h; simp at h
  | false =>
    rw [appendOutput_of_no_crash reporter mon out hc]
    exact computeMatchPos_spec _

/-- Witness for C1's theorem at a concrete input. -/
theorem appendOutput_matchPos_line_boundary_witness :
    (appendOutput reporterNone (freshMonitor defaultRunCfg) [10]).2 = false ∧
    ((appendOutput reporterNone (freshMonitor defaultRunCfg) [10]).1.matchPos = 0 ∨
     (appendOutput reporterNone (freshMonitor defaultRunCfg) [10]).1.output.getD
       ((appendOutput reporterNone (freshMonitor defaultRunCfg) [10]).1.matchPos - 1) 0 = 10 ∨
     ((appendOutput reporterNone (freshMonitor defaultRunCfg) [10]).1.matchPos : Int) =
       ((appendOutput reporterNone (freshMonitor defaultRunCfg) [10]).1.output.length : Int) -
         2 * (maxErrorLength : Int)) :=
  ⟨by decide,
   appendOutput_matchPos_line_boundary reporterNone (freshMonitor defaultRunCfg) [10] (by decide)⟩

/-- C1 counterexample: a match-free append of 600 non-newline bytes
to a fresh monitor leaves `matchPos = 88`, which is neither 0 nor
preceded by a `'\n'` byte (the backward walk gives up after
`maxErrorLength` steps). -/
theorem appendOutput_matchPos_counterexample :
    (appendOutput reporterNone (freshMonitor defaultRunCfg) (List.replicate 600 97)).2 = false ∧
    ¬ ((appendOutput reporterNone (freshMonitor defaultRunCfg)
          (List.replicate 600 97)).1.matchPos = 0 ∨
       (appendOutput reporterNone (freshMonitor defaultRunCfg)
          (List.replicate 600 97)).1.output.getD
         ((appendOutput reporterNone (freshMonitor defaultRunCfg)
             (List.replicate 600 97)).1.matchPos - 1) 0 = 10) := by
  decide

/-- C6 (amended): an `appendOutput` step that detects no crash always
leaves the buffer within `2 × beforeContext` bytes (the compaction runs
before the step completes); a crash-detecting step returns early,
before the compaction. -/
theorem appendOutput_length_bound (reporter : Reporter) (mon : Monitor) (out : List Nat)
    (h : (appendOutput reporter mon out).2 = false) :
    (appendOutput reporter mon out).1.output.length ≤
      2 * (appendOutput reporter mon out).1.beforeContext := by
  cases hc : reporter.containsCrash ((mon.output ++ out).drop mon.matchPos) with
  | true => rw [appendOutput_of_crash reporter mon out hc] at h; simp at h
  | false =>
    rw [appendOutput_of_no_crash reporter mon out hc]
    simp only
    split
    · next hlen => simp only [List.length_drop]; omega
    · next hlen => omega

/-- Witness for C6's theorem at a concrete input. -/
theorem appendOutput_length_bound_witness :
    (appendOutput reporterNone tinyMonitor [97, 97, 97]).2 = false ∧
    (appendOutput reporterNone tinyMonitor [97, 97, 97]).1.output.length ≤
      2 * (appendOutput reporterNone tinyMonitor [97, 97, 97]).1.beforeContext :=
  ⟨by decide, appendOutput_length_bound reporterNone tinyMonitor [97, 97, 97] (by decide)⟩

/-- C6 counterexample: with `beforeContext = 1`, a 3-byte chunk whose
window the reporter flags as a crash makes `appendOutput` return with
the buffer at 3 bytes, above the `2 × beforeContext = 2` bound — the
crash path skips the compaction entirely. -/
theorem appendOutput_length_bound_counterexample :
    (appendOutput reporterAlways tinyMonitor [97, 97, 97]).2 = true ∧
    2 * (appendOutput reporterAlways tinyMonitor [97, 97, 97]).1.beforeContext <
      (appendOutput reporterAlways tinyMonitor [97, 97, 97]).1.output.length := by
  decide

/-- One `appendOutput` step preserves `matchPos ≤ len(output)`. -/
theorem appendOutput_matchPos_le (reporter : Reporter) (mon : Monitor) (out : List Nat)
    (h : mon.matchPos ≤ mon.output.length) :
    (appendOutput reporter mon out).1.matchPos ≤
      (appendOutput reporter mon out).1.output.length := by
  cases hc : reporter.containsCrash ((mon.output ++ out).drop mon.matchPos) with
  | true =>
    rw [appendOutput_of_crash reporter mon out hc]
    simp only [List.length_append]
    omega
  | false =>
    rw [appendOutput_of_no_crash reporter mon out hc]
    exact computeMatchPos_le _

/-- `appendAll` preserves `matchPos ≤ len(output)`. -/
theorem appendAll_inv (reporter : Reporter) (chunks : List (List Nat)) :
    ∀ mon : Monitor, mon.matchPos ≤ mon.output.length →
      (appendAll reporter mon chunks).matchPos ≤ (appendAll reporter mon chunks).output.length := by
  induction chunks with
  | nil => intro mon h; simpa [appendAll] using h
  | cons c cs ih =>
    intro mon h
    rw [appendAll]
    rcases hb : appendOutput reporter mon c with ⟨m, b⟩
    have hm := appendOutput_matchPos_le reporter mon c h
    rw [hb] at hm
    cases b
    · exact ih m hm
    · exact hm

/-- C9: for every monitor freshly built by `Instance.Run` and every
sequence of appended chunks, `matchPos` stays within
`0 ≤ matchPos ≤ len(output)` after each `appendOutput` call (including
through compaction), so the scan window `output[matchPos:]` is always in
bounds. -/
theorem appendAll_matchPos_le (reporter : Reporter) (cfg : RunCfg)
    (chunks : List (List Nat)) :
    (appendAll reporter (freshMonitor cfg) chunks).matchPos ≤
      (appendAll reporter (freshMonitor cfg) chunks).output.length :=
  appendAll_inv reporter chunks (freshMonitor cfg) (by simp [freshMonitor])

/- ### C5: extraction fires at most once -/

/-- Every successful `extractError` marks the monitor it returns as
already extracted. -/
theorem extractError_ok_called (env : VMEnv) (reporter : Reporter) (mon : Monitor)
    (d : String) (out : ExtractOut) (h : extractError env reporter mon d = Except.ok out) :
    out.mon.extractCalled = true := by
  unfold extractError at h
  split at h
  · simp at h
  all_goals (
    split at h
    all_goals (
      simp only [] at h
      split at h
      · simp at h
      · injection h with h2
        subst h2
        simp [waitForOutput]))

/-- C5: once `extractError` has returned on a monitor, invoking it a
second time on that monitor panics (`extractError called twice`) —
regardless of the environment, reporter, or default error of the second
call — so a second Report is never silently produced. -/
theorem extractError_twice_panics (env env2 : VMEnv) (reporter reporter2 : Reporter)
    (mon : Monitor) (d d2 : String) (out : ExtractOut)
    (h : extractError env reporter mon d = Except.ok out) :
    extractError env2 reporter2 out.mon d2 = Except.error "extractError called twice" := by
  have hc := extractError_ok_called env reporter mon d out h
  unfold extractError
  simp [hc]

/-- The result of a first `extractError` on a fresh monitor with an
empty default error, inert diagnosis, and no trailing output. -/
def extractOut0 : ExtractOut :=
  ⟨{ output := [], beforeContext := beforeContextDefault, matchPos := 0, exit := ExitNormal,
     extractCalled := true, hasFinished := false }, none, 0, true⟩

/-- Witness for C5's theorem at a concrete input. -/
theorem extractError_twice_panics_witness :
    extractError envSilent reporterNone extractOut0.mon "x" =
      Except.error "extractError called twice" :=
  extractError_twice_panics envSilent envSilent reporterNone reporterNone
    (freshMonitor defaultRunCfg) "" "x" extractOut0 (by rfl)

/- ### Extraction lemmas for the exit-path properties -/

/-- `extractError` with an empty default error (the clean-exit path of
an accepting exit policy): no diagnosis, a bounded wait for trailing
output, and — when the reporter still finds nothing — a nil report. -/
theorem extractError_empty (env : VMEnv) (reporter : Reporter) (mon : Monitor)
    (hec : mon.extractCalled = false)
    (hcc : reporter.containsCrash ((mon.output ++ env.trailing.flatten).drop mon.matchPos) = false)
    (hpf : reporter.parseFrom (mon.output ++ env.trailing.flatten) mon.matchPos = none) :
    extractError env reporter mon "" =
      Except.ok
        ⟨{ output := mon.output ++ env.trailing.flatten, beforeContext := mon.beforeContext,
           matchPos := mon.matchPos, exit := mon.exit, extractCalled := true,
           hasFinished := false }, none, 0, true⟩ := by
  simp [extractError, extractErrorCore, createReport, waitForOutput, hec, hcc, hpf, noOutputCrash]

/-- The extraction body on a non-empty default error when the reporter
parses nothing from either buffer: one `Diagnose` call and the default
report (its title the default error, its type `crash.LostConnection`
for the lost-connection label and `crash.UnknownType` otherwise). -/
theorem extractErrorCore_default_summary (env : VMEnv) (reporter : Reporter)
    (mon1 mon2 : Monitor) (d : String) (hd : d ≠ "")
    (hpf1 : reporter.parseFrom mon1.output mon1.matchPos = none)
    (hpf2 : reporter.parseFrom mon2.output mon2.matchPos = none) :
    (extractErrorCore env reporter mon1 mon2 d).map
        (fun p => (p.1.map Report.title, p.1.map Report.typ, p.2)) =
      Except.ok (some d,
        some (if d = lostConnectionCrash then CrashType.lostConnection else CrashType.unknownType),
        1) := by
  simp only [extractErrorCore, createReport, hpf1, hpf2, hd, ne_eq, not_false_iff, if_true,
    ite_false, ite_true, false_and, if_false]
  split <;> split <;> simp [Except.map]

/-- `extractError` with a non-empty default error other than the
no-output and lost-connection labels, when the reporter parses nothing:
one `Diagnose` call, a bounded wait for trailing output, and the default
report with `crash.UnknownType`. -/
theorem extractError_default_summary (env : VMEnv) (reporter : Reporter) (mon : Monitor)
    (d : String) (hec : mon.extractCalled = false) (hd : d ≠ "")
    (hdn : d ≠ noOutputCrash) (hdl : d ≠ lostConnectionCrash)
    (hpf1 : reporter.parseFrom mon.output mon.matchPos = none)
    (hpf2 : reporter.parseFrom (mon.output ++ env.trailing.flatten) mon.matchPos = none) :
    (extractError env reporter mon d).map
        (fun o => (o.rep.map Report.title, o.rep.map Report.typ, o.diagnoseCount, o.waited)) =
      Except.ok (some d, some CrashType.unknownType, 1, true) := by
  have hcore := extractErrorCore_default_summary env reporter
    { mon with extractCalled := true, hasFinished := false }
    (waitForOutput env { mon with extractCalled := true, hasFinished := false }) d hd
    (by simpa using hpf1) (by simpa [waitForOutput] using hpf2)
  rcases hE : extractErrorCore env reporter
      { mon with extractCalled := true, hasFinished := false }
      (waitForOutput env { mon with extractCalled := true, hasFinished := false }) d
    with m | ⟨rep, dc⟩
  · rw [hE] at hcore; simp [Except.map] at hcore
  · rw [hE] at hcore
    simp only [Except.map, hdl, ite_false, Except.ok.injEq, Prod.mk.injEq, if_neg] at hcore
    obtain ⟨h1, h2, h3⟩ := hcore
    simp [extractError, Except.map, hec, hdn, hE, h1, h2, h3]

/-- `extractError` with the no-output default error, when the reporter
parses nothing: one `Diagnose` call, no wait for trailing output
(`waitForOutput` is skipped: the harness already waited long enough),
and the default report with `crash.UnknownType`. -/
theorem extractError_noOutput_summary (env : VMEnv) (reporter : Reporter) (mon : Monitor)
    (hec : mon.extractCalled = false)
    (hpf : reporter.parseFrom mon.output mon.matchPos = none) :
    (extractError env reporter mon noOutputCrash).map
        (fun o => (o.rep.map Report.title, o.rep.map Report.typ, o.diagnoseCount, o.waited)) =
      Except.ok (some noOutputCrash, some CrashType.unknownType, 1, false) := by
  have hd : noOutputCrash ≠ "" := by decide
  have hdl : ¬ (noOutputCrash = lostConnectionCrash) := by decide
  have hcore := extractErrorCore_default_summary env reporter
    { mon with extractCalled := true, hasFinished := false }
    { mon with extractCalled := true, hasFinished := false } noOutputCrash hd
    (by simpa using hpf) (by simpa using hpf)
  rcases hE : extractErrorCore env reporter
      { mon with extractCalled := true, hasFinished := false }
      { mon with extractCalled := true, hasFinished := false } noOutputCrash
    with m | ⟨rep, dc⟩
  · rw [hE] at hcore; simp [Except.map] at hcore
  · rw [hE] at hcore
    simp only [Except.map, hdl, ite_false, Except.ok.injEq, Prod.mk.injEq, if_neg] at hcore
    obtain ⟨h1, h2, h3⟩ := hcore
    simp [extractError, Except.map, hec, hE, h1, h2, h3]

/- ### C2, C3, C4: the exit paths of `monitorExecution` -/

/-- C4: with exit policy `ExitNormal`, a clean exit (`errc` delivers
nil) on a monitor whose buffer the reporter finds nothing in — neither
`ContainsCrash` on the scan window nor `ParseFrom` — makes the run
return a nil report (after the bounded wait for trailing output and
with no diagnosis). -/
theorem monitorExecution_exitNormal_nil (env : VMEnv) (reporter : Reporter) (mon : Monitor)
    (hexit : mon.exit = ExitNormal) (hec : mon.extractCalled = false)
    (hcc : reporter.containsCrash ((mon.output ++ env.trailing.flatten).drop mon.matchPos) = false)
    (hpf : reporter.parseFrom (mon.output ++ env.trailing.flatten) mon.matchPos = none) :
    (monitorExecution env reporter mon [Event.exited ExitStatus.normal]).map runResultSummary =
      Except.ok (true, none, none, 0, true) := by
  have hland : ¬ (Nat.land ExitNormal ExitNormal = 0) := by decide
  have hx := extractError_empty env reporter mon hec hcc hpf
  simp [monitorExecution, finishWithExtract, hexit, hland, hx, runResultSummary, Except.map]

/-- Witness for C4's theorem at a concrete input. -/
theorem monitorExecution_exitNormal_nil_witness :
    (monitorExecution envSilent reporterNone (freshMonitor defaultRunCfg)
        [Event.exited ExitStatus.normal]).map runResultSummary =
      Except.ok (true, none, none, 0, true) :=
  monitorExecution_exitNormal_nil envSilent reporterNone (freshMonitor defaultRunCfg)
    rfl rfl (by rfl) (by rfl)

/-- C2 (amended): with an exit policy that excludes `ExitTimeout`, the
timeout sentinel on `errc`, and a reporter that parses no crash from
the accumulated output, the run returns a report whose title is the
timeout label `"timed out"` — but whose type is `crash.UnknownType`:
`createReport` maps only the lost-connection label to a dedicated
crash type. -/
theorem monitorExecution_timeout_report (env : VMEnv) (reporter : Reporter) (mon : Monitor)
    (hexit : mon.exit.land ExitTimeout = 0) (hec : mon.extractCalled = false)
    (hpf1 : reporter.parseFrom mon.output mon.matchPos = none)
    (hpf2 : reporter.parseFrom (mon.output ++ env.trailing.flatten) mon.matchPos = none) :
    (monitorExecution env reporter mon [Event.exited ExitStatus.timeout]).map runResultSummary =
      Except.ok (true, some timeoutCrash, some CrashType.unknownType, 1, true) := by
  have hsum := extractError_default_summary env reporter mon timeoutCrash hec
    (by decide) (by decide) (by decide) hpf1 hpf2
  rcases hE : extractError env reporter mon timeoutCrash with m | o
  · rw [hE] at hsum; simp [Except.map] at hsum
  · rw [hE] at hsum
    simp [Except.map] at hsum
    obtain ⟨h1, h2, h3, h4⟩ := hsum
    simp [monitorExecution, finishWithExtract, hexit, hE, runResultSummary, Except.map,
      h1, h2, h3, h4]

/-- Witness for C2's theorem at a concrete input. -/
theorem monitorExecution_timeout_report_witness :
    (monitorExecution envSilent reporterNone (freshMonitor defaultRunCfg)
        [Event.exited ExitStatus.timeout]).map runResultSummary =
      Except.ok (true, some timeoutCrash, some CrashType.unknownType, 1, true) :=
  monitorExecution_timeout_report envSilent reporterNone (freshMonitor defaultRunCfg)
    rfl rfl (by rfl) (by rfl)

/-- C2 counterexample: on a concrete timeout run the report's title is
`"timed out"` but its type is `crash.UnknownType`, which is not the
timeout crash type. -/
theorem monitorExecution_timeout_type_counterexample :
    (monitorExecution envSilent reporterNone (freshMonitor defaultRunCfg)
        [Event.exited ExitStatus.timeout]).map
        (fun r => (r.rep.map Report.title, r.rep.map Report.typ)) =
      Except.ok (some timeoutCrash, some CrashType.unknownType) ∧
    CrashType.unknownType ≠ CrashType.timeout :=
  ⟨by rfl, by decide⟩

/-- C3 (amended): when the ticker finds no output/activity for longer
than the no-output timeout, the run returns a report titled
`"no output from test machine"` and skips the trailing-output wait
(`waitForOutput`) — but `Instance.Diagnose` IS invoked (exactly once)
on this path, with the no-output report. -/
theorem monitorExecution_noOutput_report (env : VMEnv) (reporter : Reporter) (mon : Monitor)
    (hec : mon.extractCalled = false)
    (hpf : reporter.parseFrom mon.output mon.matchPos = none) :
    (monitorExecution env reporter mon [Event.tick true]).map runResultSummary =
      Except.ok (true, some noOutputCrash, some CrashType.unknownType, 1, false) := by
  have hsum := extractError_noOutput_summary env reporter mon hec hpf
  rcases hE : extractError env reporter mon noOutputCrash with m | o
  · rw [hE] at hsum; simp [Except.map] at hsum
  · rw [hE] at hsum
    simp [Except.map] at hsum
    obtain ⟨h1, h2, h3, h4⟩ := hsum
    simp [monitorExecution, finishWithExtract, hE, runResultSummary, Except.map,
      h1, h2, h3, h4]

/-- Witness for C3's theorem at a concrete input. -/
theorem monitorExecution_noOutput_report_witness :
    (monitorExecution envSilent reporterNone (freshMonitor defaultRunCfg) [Event.tick true]).map
        runResultSummary =
      Except.ok (true, some noOutputCrash, some CrashType.unknownType, 1, false) :=
  monitorExecution_noOutput_report envSilent reporterNone (freshMonitor defaultRunCfg)
    rfl (by rfl)

/-- C3 counterexample: on a concrete no-output run the report is the
no-output crash, yet `Instance.Diagnose` was invoked once — the code
only skips `waitForOutput` on this path, not the diagnosis. -/
theorem monitorExecution_noOutput_diagnose_counterexample :
    (monitorExecution envSilent reporterNone (freshMonitor defaultRunCfg) [Event.tick true]).map
        (fun r => (r.rep.map Report.title, r.diagnoseCount)) =
      Except.ok (some noOutputCrash, 1) ∧ (1 : Nat) ≠ 0 :=
  ⟨by rfl, by decide⟩

/- ### C7: qemu Pool.Create transient-failure retry -/

/-- While every attempt below `k` fails with a transient error and the
retry budget covers `k`, the loop reaches attempt `k` and returns its
success without surfacing the earlier errors. -/
theorem createLoop_skips_transient {α : Type} (attempts : Nat → Except String α) (x : α) :
    ∀ (k i r : Nat), k ≤ r →
      (∀ j, j < k → ∃ e, attempts (i + j) = Except.error e ∧ isTransientErr e = true) →
      attempts (i + k) = Except.ok x →
      createLoop attempts i r = Except.ok x := by
  intro k
  induction k with
  | zero =>
    intro i r _ _ hk
    rw [Nat.add_zero] at hk
    rw [createLoop, hk]
  | succ n ih =>
    intro i r hr htrans hk
    obtain ⟨e, he, ht⟩ := htrans 0 (Nat.succ_pos n)
    rw [Nat.add_zero] at he
    obtain ⟨r1, rfl⟩ : ∃ r1, r = r1 + 1 := ⟨r - 1, by omega⟩
    rw [createLoop, he]
    simp only [ht, if_true]
    apply ih (i + 1) r1 (by omega)
    · intro j hj
      obtain ⟨e1, he1, ht1⟩ := htrans (j + 1) (by omega)
      exact ⟨e1, by rw [show i + 1 + j = i + (j + 1) from by ring]; exact he1, ht1⟩
    · rw [show i + 1 + n = i + (n + 1) from by ring]
      exact hk

/-- While every attempt below `k` fails with a transient error and the
retry budget covers `k`, a non-matching error at attempt `k` is
returned as is, with no further retry. -/
theorem createLoop_stops_on_fatal {α : Type} (attempts : Nat → Except String α) (e : String) :
    ∀ (k i r : Nat), k ≤ r →
      (∀ j, j < k → ∃ e1, attempts (i + j) = Except.error e1 ∧ isTransientErr e1 = true) →
      attempts (i + k) = Except.error e → isTransientErr e = false →
      createLoop attempts i r = Except.error e := by
  intro k
  induction k with
  | zero =>
    intro i r _ _ hk hf
    rw [Nat.add_zero] at hk
    rw [createLoop, hk]
    cases r with
    | zero => rfl
    | succ r1 => simp [hf]
  | succ n ih =>
    intro i r hr htrans hk hf
    obtain ⟨e1, he1, ht1⟩ := htrans 0 (Nat.succ_pos n)
    rw [Nat.add_zero] at he1
    obtain ⟨r1, rfl⟩ : ∃ r1, r = r1 + 1 := ⟨r - 1, by omega⟩
    rw [createLoop, he1]
    simp only [ht1, if_true]
    apply ih (i + 1) r1 (by omega) _ _ hf
    · intro j hj
      obtain ⟨e2, he2, ht2⟩ := htrans (j + 1) (by omega)
      exact ⟨e2, by rw [show i + 1 + j = i + (j + 1) from by ring]; exact he2, ht2⟩
    · rw [show i + 1 + n = i + (n + 1) from by ring]
      exact hk

/-- C7: `qemu.Pool.Create` retries attempts whose error text matches a
known transient cause up to the 1000-retry cap and returns the first
success without surfacing the earlier transient errors; an error not
matching those causes — at whatever attempt it occurs within the
retried run — is returned immediately. -/
theorem qemuPoolCreate_retry_spec :
    (∀ (α : Type) (attempts : Nat → Except String α) (k : Nat) (x : α),
        k ≤ 1000 →
        (∀ j, j < k → ∃ e, attempts j = Except.error e ∧ isTransientErr e = true) →
        attempts k = Except.ok x →
        qemuPoolCreate attempts = Except.ok x) ∧
    (∀ (α : Type) (attempts : Nat → Except String α) (k : Nat) (e : String),
        k ≤ 1000 →
        (∀ j, j < k → ∃ e1, attempts j = Except.error e1 ∧ isTransientErr e1 = true) →
        attempts k = Except.error e → isTransientErr e = false →
        qemuPoolCreate attempts = Except.error e) := by
  constructor
  · intro α attempts k x hk htrans hok
    rw [qemuPoolCreate]
    apply createLoop_skips_transient attempts x k 0 1000 hk
    · intro j hj; simpa using htrans j hj
    · simpa using hok
  · intro α attempts k e hk htrans herr ht
    rw [qemuPoolCreate]
    apply createLoop_stops_on_fatal attempts e k 0 1000 hk _ _ ht
    · intro j hj; simpa using htrans j hj
    · simpa using herr

/-- The attempt sequence of the spec's retry property: two
"Address already in use" failures, then a success. -/
def attemptsAddrInUse : Nat → Except String Nat
  | 0 => Except.error "Address already in use"
  | 1 => Except.error "Address already in use"
  | _ => Except.ok 7

/-- An attempt sequence with a transient failure first, then a
non-matching (fatal) failure. -/
def attemptsFatal : Nat → Except String Nat
  | 0 => Except.error "Device or resource busy"
  | _ => Except.error "qemu binary not found"

/-- Witness for C7's theorem: the spec's concrete error sequence
succeeds on the third attempt, and a non-matching error hit after a
transient retry is returned immediately. -/
theorem qemuPoolCreate_retry_spec_witness :
    qemuPoolCreate attemptsAddrInUse = Except.ok 7 ∧
    qemuPoolCreate attemptsFatal = Except.error "qemu binary not found" :=
  ⟨qemuPoolCreate_retry_spec.1 Nat attemptsAddrInUse 2 7 (by decide)
      (fun j hj => ⟨"Address already in use", by
        match j, hj with
        | 0, _ => exact ⟨rfl, by decide⟩
        | 1, _ => exact ⟨rfl, by decide⟩⟩)
      rfl,
   qemuPoolCreate_retry_spec.2 Nat attemptsFatal 1 "qemu binary not found" (by decide)
      (fun j hj => ⟨"Device or resource busy", by
        match j, hj with
        | 0, _ => exact ⟨rfl, by decide⟩⟩)
      rfl (by decide)⟩

/- ### C8: vm Pool.Close -/

/-- The number of successful `Pool.Create` calls in a history. -/
def countCreated : List PoolEvt → Nat
  | [] => 0
  | PoolEvt.created :: rest => countCreated rest + 1
  | PoolEvt.closedInstance :: rest => countCreated rest

/-- The number of `Instance.Close` calls in a history. -/
def countClosed : List PoolEvt → Nat
  | [] => 0
  | PoolEvt.created :: rest => countClosed rest
  | PoolEvt.closedInstance :: rest => countClosed rest + 1

/-- The `activeCount` fold equals creates minus closes. -/
theorem foldl_applyPoolEvt (evts : List PoolEvt) :
    ∀ c : Int, evts.foldl applyPoolEvt c =
      c + (countCreated evts : Int) - (countClosed evts : Int) := by
  induction evts with
  | nil => intro c; simp [countCreated, countClosed]
  | cons e rest ih =>
    intro c
    cases e <;>
      simp only [List.foldl, applyPoolEvt, countCreated, countClosed, ih] <;>
      push_cast <;> ring

/-- C8: after any history of successful creates and instance closes,
closing the pool while some created instance is not yet closed panics
(`activeCount` is non-zero), and closing it when every created instance
has been closed returns nil. -/
theorem poolClose_spec (evts : List PoolEvt) :
    (countClosed evts < countCreated evts →
      poolClose (activeAfter evts) =
        Except.error "all the instances should be closed before pool.Close()") ∧
    (countClosed evts = countCreated evts →
      poolClose (activeAfter evts) = Except.ok ()) := by
  have h : activeAfter evts = (countCreated evts : Int) - (countClosed evts : Int) := by
    rw [activeAfter, foldl_applyPoolEvt]; ring
  constructor
  · intro hlt
    rw [poolClose, if_pos]
    rw [h]
    omega
  · intro heq
    have h0 : activeAfter evts = 0 := by rw [h]; omega
    rw [poolClose, if_neg]
    simp [h0]

/-- Witness for C8's theorem at concrete histories. -/
theorem poolClose_spec_witness :
    poolClose (activeAfter [PoolEvt.created]) =
      Except.error "all the instances should be closed before pool.Close()" ∧
    poolClose (activeAfter [PoolEvt.created, PoolEvt.closedInstance]) = Except.ok () :=
  ⟨(poolClose_spec [PoolEvt.created]).1 (by decide),
   (poolClose_spec [PoolEvt.created, PoolEvt.closedInstance]).2 (by decide)⟩

/- ### C10: unknown Run options panic -/

/-- The option loop rejects any list containing a value of an unknown
type, whatever configuration it has accumulated so far. -/
theorem parseOpts_unknown_not_ok (opts : List RunOpt) (d : String) :
    ∀ cfg : RunCfg, RunOpt.unknown d ∈ opts →
      exceptIsOk (parseOpts cfg opts) = false := by
  induction opts with
  | nil => intro cfg h; simp at h
  | cons o rest ih =>
    intro cfg h
    cases o with
    | exitCondition e =>
      rw [parseOpts]
      rcases List.mem_cons.mp h with h1 | h1
      · simp at h1
      · exact ih _ h1
    | outputSize n =>
      rw [parseOpts]
      rcases List.mem_cons.mp h with h1 | h1
      · simp at h1
      · exact ih _ h1
    | injectExecuting =>
      rw [parseOpts]
      rcases List.mem_cons.mp h with h1 | h1
      · simp at h1
      · exact ih _ h1
    | earlyFinishCb =>
      rw [parseOpts]
      rcases List.mem_cons.mp h with h1 | h1
      · simp at h1
      · exact ih _ h1
    | unknown descr => rw [parseOpts]; rfl

/-- C10: an `Instance.Run` call whose option list contains a value of a
type other than ExitCondition, OutputSize, InjectExecuting, or
EarlyFinishCb panics in the option loop, before any command is
launched or any event is processed — never silently ignoring it. -/
theorem instanceRun_unknown_option_panics (env : VMEnv) (reporter : Reporter)
    (opts : List RunOpt) (events : List Event) (d : String)
    (h : RunOpt.unknown d ∈ opts) :
    exceptIsOk (instanceRun env reporter opts events) = false := by
  have hp := parseOpts_unknown_not_ok opts d defaultRunCfg h
  rw [instanceRun]
  rcases he : parseOpts defaultRunCfg opts with m | cfg
  · rfl
  · rw [he] at hp; simp [exceptIsOk] at hp

/-- Witness for C10's theorem at a concrete input. -/
theorem instanceRun_unknown_option_panics_witness :
    exceptIsOk (instanceRun envSilent reporterNone
      [RunOpt.exitCondition ExitError, RunOpt.unknown "main.customOption"]
      [Event.shutdown]) = false :=
  instanceRun_unknown_option_panics envSilent reporterNone
    [RunOpt.exitCondition ExitError, RunOpt.unknown "main.customOption"]
    [Event.shutdown] "main.customOption" (by simp)

end SchedTest
